import Mathlib

/-!
Verification of the query-intent router and aggregation engine of
src/backend/main.py (functions parse_last_quarter and route_question).

The Python code is shallowly embedded: the dataset snapshot (a pandas
DataFrame) becomes a list of rows, numeric amounts become rationals
(modelling the floating-point amounts; no computation here produces a
half-cent tie, so the rounding functions agree with the float behaviour
on every input considered), Python strings become Lean strings over the
same character lists, and the regular-expression search for an RVP
mention is implemented directly as the leftmost-match scan it denotes.
-/

/-! ### Python string primitives -/

/-- Character-list prefix test, the primitive under substring search. -/
def isPre : List Char → List Char → Bool
  | [], _ => true
  | _ :: _, [] => false
  | a :: as, b :: bs => a == b && isPre as bs

/-- Does `sub` occur as a contiguous run inside `l`?  (Python `sub in s`.) -/
def containsSub (l sub : List Char) : Bool :=
  match l with
  | [] => sub.isEmpty
  | _ :: rest => isPre sub l || containsSub rest sub

/-- Python `pat in s` on strings. -/
def strIn (pat s : String) : Bool := containsSub s.data pat.data

/-- Python `str.lower()` (the questions involved are ASCII). -/
def lowerStr (s : String) : String := ⟨s.data.map Char.toLower⟩

/-- Helper for `pyTitle`: the boolean tracks whether the previous
character was alphabetic. -/
def titleChars : Bool → List Char → List Char
  | _, [] => []
  | prevAlpha, c :: rest =>
    if c.isAlpha then
      (if prevAlpha then c.toLower else c.toUpper) :: titleChars true rest
    else
      c :: titleChars false rest

/-- Python `str.title()`: uppercase each letter that starts a run of
letters, lowercase the rest. -/
def pyTitle (s : String) : String := ⟨titleChars false s.data⟩

/-- Python `s.replace('_', ' ')`. -/
def replaceUnderscores (s : String) : String :=
  ⟨s.data.map (fun c => if c = '_' then ' ' else c)⟩

/-- Python `" ".join(bits)`. -/
def joinBits : List String → String
  | [] => ""
  | [b] => b
  | b :: rest => b ++ " " ++ joinBits rest

/-- Code-point comparison of characters, as Python compares strings. -/
def chLtB (a b : Char) : Bool := Nat.blt a.toNat b.toNat

/-- Lexicographic (code-point) order on character lists. -/
def listLeB : List Char → List Char → Bool
  | [], _ => true
  | _ :: _, [] => false
  | a :: as, b :: bs => chLtB a b || (a == b && listLeB as bs)

/-- Python string `<=` (lexicographic on code points). -/
def strLeB (a b : String) : Bool := listLeB a.data b.data

/-! ### Dates -/

/-- A calendar date as Python's `datetime.date` carries it.  Calendar
validity (month in 1..12) is a hypothesis of the theorems that need it,
as every Python `date` satisfies it. -/
structure Date where
  year : ℤ
  month : ℕ
  day : ℕ
deriving DecidableEq, Repr

/-- Python `date <= date`: lexicographic on (year, month, day). -/
def dateLe (a b : Date) : Bool :=
  decide (a.year < b.year ∨ (a.year = b.year ∧
    (a.month < b.month ∨ (a.month = b.month ∧ a.day ≤ b.day))))

/-- The Gregorian leap-year test exactly as written in the source:
`year%4==0 and (year%100!=0 or year%400==0)`. -/
def isLeapYear (y : ℤ) : Bool :=
  decide (y % 4 = 0 ∧ (y % 100 ≠ 0 ∨ y % 400 = 0))

/-! ### parse_last_quarter (src/backend/main.py lines 87-116) -/

/-- The `start_month` computed inside `parse_last_quarter`:
`q = (month-1)//3 + 1`, `last_q = q-1 if q > 1 else 4`,
`start_month = 3*(last_q-1)+1`. -/
def lastQuarterStartMonth (ref : Date) : ℕ :=
  let q := (ref.month - 1) / 3 + 1
  let last_q := if q > 1 then q - 1 else 4
  3 * (last_q - 1) + 1

/-- `parse_last_quarter(ref)` from the source, translated clause by
clause.  The `month_days` binding is the source's dead code (computed,
never used); the final `else` branch is the source's `end = start`
fallback. -/
def parse_last_quarter (ref : Date) : Date × Date :=
  let q := (ref.month - 1) / 3 + 1
  let year := if q > 1 then ref.year else ref.year - 1
  let start_month := lastQuarterStartMonth ref
  let start : Date := ⟨year, start_month, 1⟩
  let _month_days :=
    if start_month ∈ [1, 3, 5, 7, 8, 10, 12] then
      if start_month = 3 then 30 + 1 else 31
    else if start_month = 2 then (if isLeapYear year then 29 else 28)
    else 30
  if start_month ∈ [1, 4, 7, 10] then
    let em := start_month + 2
    let ed :=
      if em ∈ [1, 3, 5, 7, 8, 10, 12] then 31
      else if em = 2 then (if isLeapYear year then 29 else 28)
      else 30
    (start, ⟨year, em, ed⟩)
  else
    (start, start)

/-! ### Dataset rows -/

/-- One observation of the sales snapshot; the columns of the DataFrame.
The region-owner column is called `rvp` in the data source. -/
structure Row where
  date : Date
  purchases : ℚ
  redemptions : ℚ
  assets : ℚ
  wholesaler : String
  advisor : String
  mandate_name : String
  fund_type : String
  rvp : String
deriving DecidableEq, Repr

/-- Column access `row[group_field]` for the dimension columns the
router can select. -/
def getDim (r : Row) (f : String) : String :=
  if f = "fund_type" then r.fund_type
  else if f = "wholesaler" then r.wholesaler
  else if f = "advisor" then r.advisor
  else if f = "mandate_name" then r.mandate_name
  else ""

/-- Column access `row[metric]` for the metric columns the router can
select. -/
def getMetric (r : Row) (m : String) : ℚ :=
  if m = "redemptions" then r.redemptions
  else if m = "purchases" then r.purchases
  else if m = "assets" then r.assets
  else 0

/-- `df[metric].sum()`. -/
def sumMetric (rows : List Row) (m : String) : ℚ :=
  (rows.map (fun r => getMetric r m)).sum

/-! ### Sorting (pandas groupby key order and sort_values) -/

/-- Insert into a list sorted by the boolean comparison `le`. -/
def insertLe (le : α → α → Bool) (a : α) : List α → List α
  | [] => [a]
  | b :: bs => if le a b then a :: b :: bs else b :: insertLe le a bs

/-- Insertion sort by the boolean comparison `le`. -/
def sortLe (le : α → α → Bool) : List α → List α
  | [] => []
  | a :: as => insertLe le a (sortLe le as)

/-- Descending-by-value order on (group label, summed value) pairs:
pandas `sort_values(metric, ascending=False)`. -/
def descByVal (a b : String × ℚ) : Bool := decide (b.2 ≤ a.2)

/-- The distinct keys of a grouped aggregation, in ascending order
(pandas `groupby` sorts its keys). -/
def groupKeys (rows : List Row) (f : String) : List String :=
  sortLe strLeB ((rows.map (fun r => getDim r f)).dedup)

/-- `df.groupby(group_field)[metric].sum()`: each distinct key paired
with the sum of the metric over its rows. -/
def groupSums (rows : List Row) (f metric : String) : List (String × ℚ) :=
  (groupKeys rows f).map
    (fun k => (k, sumMetric (rows.filter (fun r => getDim r f == k)) metric))

/-- The grouped aggregation after `sort_values(metric, ascending=False)`. -/
def aggSorted (rows : List Row) (f metric : String) : List (String × ℚ) :=
  sortLe descByVal (groupSums rows f metric)

/-! ### Rounding and number formatting -/

/-- Rounding to two decimal places, as `round(2)` and the `.2f` format
apply it to the amounts.  (Exact half-cent ties, where binary floats and
bankers' rounding would matter, do not arise in any computation below.) -/
def round2 (x : ℚ) : ℚ := (round (x * 100) : ℤ) / 100

/-- Group a digit run into threes from the right (already reversed). -/
def chunk3 : List Char → List (List Char)
  | [] => []
  | [a] => [[a]]
  | [a, b] => [[a, b]]
  | a :: b :: c :: rest => [a, b, c] :: chunk3 rest

/-- Render a natural number with thousands separators. -/
def commaGroup (n : ℕ) : String :=
  let ds := (toString n).data
  joinWith ((chunk3 ds.reverse).map List.reverse).reverse
where
  joinWith : List (List Char) → String
    | [] => ""
    | [g] => ⟨g⟩
    | g :: rest => (⟨g⟩ : String) ++ "," ++ joinWith rest

/-- Two-digit zero-padded rendering of a number below 100. -/
def pad2Nat (n : ℕ) : String :=
  if n < 10 then "0" ++ toString n else toString n

/-- Python's `f"{x:,.2f}"`: thousands separators and exactly two
decimal places. -/
def fmtComma2 (x : ℚ) : String :=
  let c : ℤ := round (x * 100)
  let sign := if c < 0 then "-" else ""
  let a := c.natAbs
  sign ++ commaGroup (a / 100) ++ "." ++ pad2Nat (a % 100)

/-! ### Monthly resampling (pandas resample("M")) -/

/-- The month a date falls in, as a single index (year * 12 + month-1),
so that consecutive indices are consecutive calendar months. -/
def monthIdx (d : Date) : ℤ := d.year * 12 + ((d.month : ℤ) - 1)

/-- strftime `%Y` for CE years: zero-padded to four digits. -/
def pad4Int (n : ℤ) : String :=
  let a := n.toNat
  if a < 10 then "000" ++ toString a
  else if a < 100 then "00" ++ toString a
  else if a < 1000 then "0" ++ toString a
  else toString a

/-- strftime `"%Y-%m"` of any date in month-index `i`. -/
def monthLabel (i : ℤ) : String :=
  pad4Int (i / 12) ++ "-" ++ pad2Nat (i % 12 + 1).toNat

/-- The consecutive run of month indices from the earliest to the latest
month present, which is exactly the set of buckets `resample("M")`
creates: interior months with no rows still get a bucket. -/
def monthRange (rows : List Row) : List ℤ :=
  match rows with
  | [] => []
  | r :: rs =>
    let lo := (rs.map (fun x => monthIdx x.date)).foldl min (monthIdx r.date)
    let hi := (rs.map (fun x => monthIdx x.date)).foldl max (monthIdx r.date)
    (List.range (hi - lo + 1).toNat).map (fun k : ℕ => lo + (k : ℤ))

/-- `df.resample("M", on="date")[metric].sum()`: one bucket per month in
`monthRange`, holding the sum of the metric over the rows of that month
(zero when the bucket is empty). -/
def trendSeries (rows : List Row) (metric : String) : List (ℤ × ℚ) :=
  (monthRange rows).map
    (fun i => (i, sumMetric (rows.filter (fun r => monthIdx r.date == i)) metric))

/-! ### Intent extraction (src/backend/main.py lines 119-170) -/

/-- Membership in Python's regex class `\s`. -/
def isPySpace (c : Char) : Bool :=
  c == ' ' || c == '\t' || c == '\n' || c == '\r' || c == '\x0b' || c == '\x0c'

/-- Membership in the regex class `[a-zA-Z]`. -/
def isRegexAlpha (c : Char) : Bool :=
  ('a' ≤ c && c ≤ 'z') || ('A' ≤ c && c ≤ 'Z')

/-- Try the pattern `rvp\s+([a-zA-Z]+)` anchored at the head of `l`,
returning the captured word: the literal `rvp`, then at least one
whitespace character, then a maximal run of at least one letter. -/
def matchRvpAt (l : List Char) : Option (List Char) :=
  match l with
  | 'r' :: 'v' :: 'p' :: rest =>
    let ws := rest.takeWhile isPySpace
    if ws.isEmpty then none
    else
      let word := (rest.drop ws.length).takeWhile isRegexAlpha
      if word.isEmpty then none else some word
  | _ => none

/-- `re.search(r"rvp\s+([a-zA-Z]+)", q_low)`: the leftmost match wins. -/
def searchRvp : List Char → Option (List Char)
  | [] => none
  | c :: rest =>
    match matchRvpAt (c :: rest) with
    | some w => some w
    | none => searchRvp rest

/-- Python `dict.get(k)` on the caller-supplied context mapping. -/
def ctxGet (ctx : List (String × String)) (k : String) : Option String :=
  match ctx.find? (fun p => p.1 == k) with
  | some p => some p.2
  | none => none

/-- The `rvp` variable of `route_question` (lines 123-129): a question
match is title-cased and always wins; otherwise the context is consulted
only when it is a truthy dict holding a truthy `rvp` value (Python's
`user_ctx and user_ctx.get("rvp")`, so an empty dict, a missing key and
an empty-string value are all skipped). -/
def resolveRvp (qLow : List Char) (ctx : Option (List (String × String))) :
    Option String :=
  match searchRvp qLow with
  | some w => some (pyTitle ⟨w⟩)
  | none =>
    match ctx with
    | none => none
    | some c =>
      if c.isEmpty then none
      else
        match ctxGet c "rvp" with
        | some v => if v = "" then none else some v
        | none => none

/-- Whether the question asks for the last-quarter window (line 135,
re-evaluated for the title at line 166). -/
def wantsLastQ (q_low : String) : Bool :=
  strIn "last quarter" q_low || strIn "past quarter" q_low

/-- The `group_field` selection (lines 141-149), first match in the
source's fixed order. -/
def groupFieldOf (q_low : String) : Option String :=
  if strIn "by fund type" q_low then some "fund_type"
  else if strIn "by wholesaler" q_low then some "wholesaler"
  else if strIn "by advisor" q_low then some "advisor"
  else if strIn "by mandate" q_low || strIn "by mandate name" q_low then
    some "mandate_name"
  else none

/-- The `metric` selection (lines 152-161), first match in the source's
fixed order, defaulting to purchases. -/
def metricOf (q_low : String) : String :=
  if strIn "redemption" q_low then "redemptions"
  else if strIn "purchase" q_low then "purchases"
  else if strIn "asset" q_low then "assets"
  else "purchases"

/-- The time-series condition of line 184. -/
def wantsTrend (q_low : String) : Bool :=
  strIn "trend" q_low || strIn "over time" q_low || strIn "by month" q_low

/-- The display title (lines 163-170): metric title-cased, then the
optional "for RVP {value}", "(Last Quarter)" and "by {Dimension}" bits,
joined by single spaces. -/
def buildTitle (metric : String) (rvp : Option String) (lastQ : Bool)
    (group_field : Option String) : String :=
  joinBits
    ([pyTitle metric]
      ++ (match rvp with | some v => ["for RVP " ++ v] | none => [])
      ++ (if lastQ then ["(Last Quarter)"] else [])
      ++ (match group_field with
          | some g => ["by " ++ pyTitle (replaceUnderscores g)]
          | none => []))

/-! ### Responses and the router (src/backend/main.py lines 35-45, 172-197) -/

/-- One entry of the `datasets` list of a chart response. -/
structure ChartDataset where
  label : String
  data : List ℚ
deriving DecidableEq, Repr

/-- The `AskResponse` model: a string tag plus the optional payload
fields, all defaulting to none. -/
structure AskResponse where
  type : String
  title : Option String := none
  text : Option String := none
  labels : Option (List String) := none
  datasets : Option (List ChartDataset) := none
  table : Option (List (List (String × String))) := none
deriving DecidableEq, Repr

/-- The grouped-breakdown branch (lines 172-181). -/
def groupedChart (title metric g : String) (df : List Row) : AskResponse :=
  let agg := aggSorted df g metric
  { type := "chart"
    title := some title
    labels := some (agg.map Prod.fst)
    datasets := some [⟨metric, agg.map (fun p => round2 p.2)⟩] }

/-- The monthly-trend branch (lines 184-193). -/
def monthlyChart (title metric : String) (df : List Row) : AskResponse :=
  let ts := trendSeries df metric
  { type := "chart"
    title := some (title ++ " (Monthly)")
    labels := some (ts.map (fun p => monthLabel p.1))
    datasets := some [⟨metric, ts.map (fun p => round2 p.2)⟩] }

/-- The `total` of the scalar branch (line 196). -/
def scalarTotal (df : List Row) (metric : String) : ℚ :=
  if df.isEmpty then 0 else sumMetric df metric

/-- The scalar text branch (lines 196-197). -/
def scalarText (title metric : String) (df : List Row) : AskResponse :=
  { type := "text"
    title := some title
    text := some (pyTitle metric ++ " = " ++ fmtComma2 (scalarTotal df metric)) }

/-- The rows remaining after the entity filter (lines 131-132) and the
last-quarter window (lines 134-138).  `today` stands for `date.today()`
at line 136. -/
def filteredRows (q : String) (ctx : Option (List (String × String)))
    (today : Date) (df0 : List Row) : List Row :=
  let q_low := lowerStr q
  let df1 :=
    match resolveRvp q_low.data ctx with
    | some v => df0.filter (fun r => lowerStr r.rvp == lowerStr v)
    | none => df0
  if wantsLastQ q_low then
    df1.filter (fun r =>
      dateLe (parse_last_quarter today).1 r.date &&
      dateLe r.date (parse_last_quarter today).2)
  else df1

/-- `route_question(q, user_ctx)` (lines 119-197), with the implicit
inputs made explicit: `today` is `date.today()` and `df0` the cached
dataset snapshot `get_df()` hands over. -/
def route_question (q : String) (user_ctx : Option (List (String × String)))
    (today : Date) (df0 : List Row) : AskResponse :=
  let q_low := lowerStr q
  let rvp := resolveRvp q_low.data user_ctx
  let df := filteredRows q user_ctx today df0
  let metric := metricOf q_low
  let group_field := groupFieldOf q_low
  let title := buildTitle metric rvp (wantsLastQ q_low) group_field
  match group_field with
  | some g => groupedChart title metric g df
  | none =>
    if wantsTrend q_low then monthlyChart title metric df
    else scalarText title metric df

/-- The sum of the first (and only) series of a chart response. -/
def chartDataSum (r : AskResponse) : ℚ :=
  match r.datasets with
  | some (d :: _) => d.data.sum
  | _ => 0

/-! ### Specification-side calendar definitions

These follow the words of the spec (section 4.3) and serve only as the
comparison side of the refinement claims about `parse_last_quarter`. -/

/-- Spec: quarter number of a month, `floor((month-1)/3)+1`. -/
def quarterOfMonth (m : ℕ) : ℕ := (m - 1) / 3 + 1

/-- Spec: the quarter immediately preceding the one containing the
reference date, as a (year, quarter-number) pair. -/
def prevQuarter (ref : Date) : ℤ × ℕ :=
  let q := quarterOfMonth ref.month
  if 1 < q then (ref.year, q - 1) else (ref.year - 1, 4)

/-- Spec: length of a calendar month under the Gregorian rules. -/
def daysInMonth (y : ℤ) (m : ℕ) : ℕ :=
  if m = 2 then (if isLeapYear y then 29 else 28)
  else if m ∈ [4, 6, 9, 11] then 30 else 31

/-- Spec: first day of a quarter's first month. -/
def quarterFirstDay (yq : ℤ × ℕ) : Date := ⟨yq.1, 3 * (yq.2 - 1) + 1, 1⟩

/-- Spec: last calendar day of a quarter's third month. -/
def quarterLastDay (yq : ℤ × ℕ) : Date :=
  ⟨yq.1, 3 * yq.2, daysInMonth yq.1 (3 * yq.2)⟩

/-- Spec (claim C2): the distinct calendar months present in a row set,
labelled `YYYY-MM`, in order of appearance. -/
def monthsPresent (rows : List Row) : List String :=
  (rows.map (fun r => monthLabel (monthIdx r.date))).dedup

/-! ### Concrete sample data for witnesses and counterexamples -/

/-- A January 2024 observation owned by Alice. -/
def rowJan : Row :=
  ⟨⟨2024, 1, 5⟩, 10, 4, 100, "W1", "A1", "M1", "Equity", "Alice"⟩

/-- A March 2024 observation owned by Bob. -/
def rowMar : Row :=
  ⟨⟨2024, 3, 7⟩, 5, 2, 50, "W2", "A2", "M2", "Bond", "Bob"⟩

/-- Two rows with purchases 1.004 each, in distinct fund types: the
per-group 2-decimal rounding (1.00 each) then disagrees with the rounded
total (2.008 shown as 2.01). -/
def rowTieA : Row :=
  ⟨⟨2024, 2, 1⟩, 251/250, 0, 0, "W1", "A1", "M1", "A", "Alice"⟩

/-- Second half of the rounding counterexample. -/
def rowTieB : Row :=
  ⟨⟨2024, 2, 2⟩, 251/250, 0, 0, "W2", "A2", "M2", "B", "Bob"⟩

/-! ### Helper lemmas: insertion sort -/

theorem mem_insertLe {le : α → α → Bool} {a x : α} {l : List α} :
    x ∈ insertLe le a l ↔ x = a ∨ x ∈ l := by
  induction l with
  | nil => simp [insertLe]
  | cons b bs ih =>
    by_cases h : le a b = true
    · simp [insertLe, h]
    · simp only [insertLe, if_neg h, List.mem_cons, ih]
      tauto

theorem perm_insertLe (le : α → α → Bool) (a : α) (l : List α) :
    List.Perm (insertLe le a l) (a :: l) := by
  induction l with
  | nil => simp [insertLe]
  | cons b bs ih =>
    by_cases h : le a b = true
    · simp [insertLe, h]
    · simpa [insertLe, h] using
        ((ih.cons b).trans (List.Perm.swap a b bs))

theorem perm_sortLe (le : α → α → Bool) (l : List α) :
    List.Perm (sortLe le l) l := by
  induction l with
  | nil => simp [sortLe]
  | cons a as ih => exact (perm_insertLe le a (sortLe le as)).trans (ih.cons a)

theorem pairwise_insertLe {le : α → α → Bool}
    (htot : ∀ a b, le a b = true ∨ le b a = true)
    (htrans : ∀ a b c, le a b = true → le b c = true → le a c = true)
    {a : α} {l : List α} (hl : List.Pairwise (fun x y => le x y = true) l) :
    List.Pairwise (fun x y => le x y = true) (insertLe le a l) := by
  induction l with
  | nil => simp [insertLe]
  | cons b bs ih =>
    rw [List.pairwise_cons] at hl
    obtain ⟨hb, hbs⟩ := hl
    by_cases h : le a b = true
    · rw [insertLe, if_pos h]
      refine List.Pairwise.cons ?_ (List.Pairwise.cons hb hbs)
      intro x hx
      rcases List.mem_cons.mp hx with rfl | hx
      · exact h
      · exact htrans a b x h (hb x hx)
    · rw [insertLe, if_neg h]
      refine List.Pairwise.cons ?_ (ih hbs)
      intro x hx
      rcases mem_insertLe.mp hx with rfl | hx
      · rcases htot x b with hxb | hbx
        · exact absurd hxb h
        · exact hbx
      · exact hb x hx

theorem pairwise_sortLe (le : α → α → Bool)
    (htot : ∀ a b, le a b = true ∨ le b a = true)
    (htrans : ∀ a b c, le a b = true → le b c = true → le a c = true)
    (l : List α) :
    List.Pairwise (fun x y => le x y = true) (sortLe le l) := by
  induction l with
  | nil => simp [sortLe]
  | cons a as ih => exact pairwise_insertLe htot htrans ih

/-! ### Helper lemmas: grouped sums partition the total -/

theorem sumMetric_filter_split (p : Row → Bool) (rows : List Row) (m : String) :
    sumMetric (rows.filter p) m + sumMetric (rows.filter (fun r => !p r)) m
      = sumMetric rows m := by
  induction rows with
  | nil => simp [sumMetric]
  | cons r rs ih =>
    by_cases h : p r = true
    · simp [List.filter_cons, h, sumMetric] at ih ⊢
      linarith
    · simp only [Bool.not_eq_true] at h
      simp [List.filter_cons, h, sumMetric] at ih ⊢
      linarith

theorem sum_over_keys (f m : String) :
    ∀ (keys : List String) (rows : List Row), keys.Nodup →
      (∀ r ∈ rows, getDim r f ∈ keys) →
      (keys.map
        (fun k => sumMetric (rows.filter (fun r => getDim r f == k)) m)).sum
        = sumMetric rows m := by
  intro keys
  induction keys with
  | nil =>
    intro rows _ hcov
    have : rows = [] := List.eq_nil_iff_forall_not_mem.mpr fun r hr => by
      simpa using hcov r hr
    simp [this, sumMetric]
  | cons k ks ih =>
    intro rows hnd hcov
    have hknotin : k ∉ ks := (List.nodup_cons.mp hnd).1
    have hndks : ks.Nodup := (List.nodup_cons.mp hnd).2
    -- rows without the k-group
    set rows' := rows.filter (fun r => !(getDim r f == k)) with hrows'
    have hcov' : ∀ r ∈ rows', getDim r f ∈ ks := by
      intro r hr
      have hmem := List.mem_filter.mp hr
      have h1 := hcov r hmem.1
      have h2 : ¬(getDim r f = k) := by
        simpa using hmem.2
      rcases List.mem_cons.mp h1 with h | h
      · exact absurd h h2
      · exact h
    have hrest : ∀ k' ∈ ks,
        rows.filter (fun r => getDim r f == k')
          = rows'.filter (fun r => getDim r f == k') := by
      intro k' hk'
      have hne : k' ≠ k := fun h => hknotin (h ▸ hk')
      rw [hrows', List.filter_filter]
      refine (List.filter_congr ?_)
      intro r _
      by_cases h : getDim r f = k'
      · have hnk : ¬(getDim r f = k) := by
          intro hk
          exact hne (by rw [← h, hk])
        simp [h, hnk, hne]
      · simp [h]
    calc (List.map
          (fun k' => sumMetric (rows.filter (fun r => getDim r f == k')) m)
          (k :: ks)).sum
        = sumMetric (rows.filter (fun r => getDim r f == k)) m +
            (ks.map (fun k' =>
              sumMetric (rows.filter (fun r => getDim r f == k')) m)).sum := by
          simp
      _ = sumMetric (rows.filter (fun r => getDim r f == k)) m +
            (ks.map (fun k' =>
              sumMetric (rows'.filter (fun r => getDim r f == k')) m)).sum := by
          congr 1
          have hsums : ∀ k' ∈ ks,
              sumMetric (rows.filter (fun r => getDim r f == k')) m
                = sumMetric (rows'.filter (fun r => getDim r f == k')) m :=
            fun k' hk' => by rw [hrest k' hk']
          exact congrArg List.sum (List.map_congr_left hsums)
      _ = sumMetric (rows.filter (fun r => getDim r f == k)) m +
            sumMetric rows' m := by
          rw [ih rows' hndks hcov']
      _ = sumMetric rows m := sumMetric_filter_split _ rows m

theorem groupSums_total (rows : List Row) (f m : String) :
    ((groupSums rows f m).map Prod.snd).sum = sumMetric rows m := by
  have hperm : List.Perm (groupKeys rows f)
      ((rows.map (fun r => getDim r f)).dedup) := perm_sortLe _ _
  have hnd : (groupKeys rows f).Nodup :=
    hperm.nodup_iff.mpr (List.nodup_dedup _)
  have hcov : ∀ r ∈ rows, getDim r f ∈ groupKeys rows f := by
    intro r hr
    exact hperm.mem_iff.mpr (List.mem_dedup.mpr (List.mem_map_of_mem _ hr))
  have h := sum_over_keys f m (groupKeys rows f) rows hnd hcov
  simpa [groupSums, List.map_map, Function.comp] using h

theorem scalarTotal_eq_sumMetric (rows : List Row) (m : String) :
    scalarTotal rows m = sumMetric rows m := by
  cases rows with
  | nil => simp [scalarTotal, sumMetric]
  | cons r rs => simp [scalarTotal, sumMetric]

theorem aggSorted_snd_sum (rows : List Row) (f m : String) :
    ((aggSorted rows f m).map Prod.snd).sum
      = ((groupSums rows f m).map Prod.snd).sum :=
  ((perm_sortLe descByVal (groupSums rows f m)).map Prod.snd).sum_eq

/-! ### Helper lemmas: fold bounds and month ranges -/

theorem foldl_min_le_init (l : List ℤ) (d : ℤ) : l.foldl min d ≤ d := by
  induction l generalizing d with
  | nil => simp
  | cons x xs ih => exact le_trans (ih (min d x)) (min_le_left d x)

theorem foldl_min_le_mem {l : List ℤ} {x : ℤ} (hx : x ∈ l) (d : ℤ) :
    l.foldl min d ≤ x := by
  induction l generalizing d with
  | nil => cases hx
  | cons y ys ih =>
    rcases List.mem_cons.mp hx with rfl | hy
    · exact le_trans (foldl_min_le_init ys (min d x)) (min_le_right d x)
    · exact ih hy (min d y)

theorem init_le_foldl_max (l : List ℤ) (d : ℤ) : d ≤ l.foldl max d := by
  induction l generalizing d with
  | nil => simp
  | cons x xs ih => exact le_trans (le_max_left d x) (ih (max d x))

theorem mem_le_foldl_max {l : List ℤ} {x : ℤ} (hx : x ∈ l) (d : ℤ) :
    x ≤ l.foldl max d := by
  induction l generalizing d with
  | nil => cases hx
  | cons y ys ih =>
    rcases List.mem_cons.mp hx with rfl | hy
    · exact le_trans (le_max_right d x) (init_le_foldl_max ys (max d x))
    · exact ih hy (max d y)

theorem pairwise_lt_monthRange (rows : List Row) :
    List.Pairwise (· < ·) (monthRange rows) := by
  cases rows with
  | nil => simp [monthRange]
  | cons r rs =>
    rw [monthRange]
    refine (List.pairwise_lt_range _).map _ ?_
    intro a b hab
    omega

theorem monthIdx_mem_monthRange {rows : List Row} {r : Row} (hr : r ∈ rows) :
    monthIdx r.date ∈ monthRange rows := by
  cases rows with
  | nil => cases hr
  | cons x xs =>
    rw [monthRange]
    have hlo : (xs.map (fun y => monthIdx y.date)).foldl min (monthIdx x.date)
        ≤ monthIdx r.date := by
      rcases List.mem_cons.mp hr with rfl | hmem
      · exact foldl_min_le_init _ _
      · exact foldl_min_le_mem (List.mem_map_of_mem _ hmem) _
    have hhi : monthIdx r.date
        ≤ (xs.map (fun y => monthIdx y.date)).foldl max (monthIdx x.date) := by
      rcases List.mem_cons.mp hr with rfl | hmem
      · exact init_le_foldl_max _ _
      · exact mem_le_foldl_max (List.mem_map_of_mem _ hmem) _
    set lo := (xs.map (fun y => monthIdx y.date)).foldl min (monthIdx x.date)
    set hi := (xs.map (fun y => monthIdx y.date)).foldl max (monthIdx x.date)
    refine List.mem_map.mpr ⟨(monthIdx r.date - lo).toNat, ?_, ?_⟩
    · rw [List.mem_range]
      omega
    · omega

/-! ### Helper lemmas: rounding and formatting -/

theorem round2_mono {a b : ℚ} (h : a ≤ b) : round2 a ≤ round2 b := by
  rw [round2, round2]
  have hr : round (a * 100) ≤ round (b * 100) := by
    rw [round_eq, round_eq]
    exact Int.floor_mono (by linarith)
  have h100 : (0 : ℚ) < 100 := by norm_num
  rw [div_le_div_iff_of_pos_right h100]
  exact_mod_cast hr

theorem fmtComma2_zero : fmtComma2 0 = "0.00" := by
  rw [fmtComma2, round_eq]
  norm_num
  decide

/-! ### Claim theorems -/

/-- C1: for every reference date (months run 1..12 as on every Python
`date`), `parse_last_quarter` returns the closed interval covering the
full calendar quarter immediately preceding the quarter containing the
reference date: its first day through its last calendar day. -/
theorem c1_last_quarter_correct (ref : Date)
    (h1 : 1 ≤ ref.month) (h2 : ref.month ≤ 12) :
    parse_last_quarter ref
      = (quarterFirstDay (prevQuarter ref), quarterLastDay (prevQuarter ref)) := by
  obtain ⟨y, m, d⟩ := ref
  simp only [Date.month] at h1 h2
  interval_cases m <;>
    simp [parse_last_quarter, lastQuarterStartMonth, prevQuarter, quarterOfMonth,
      quarterFirstDay, quarterLastDay, daysInMonth]

/-- Witness for C1 at the two reference dates named by the spec:
2024-05-15 yields (2024-01-01, 2024-03-31) and 2024-01-15 yields
(2023-10-01, 2023-12-31). -/
theorem c1_last_quarter_correct_witness :
    parse_last_quarter ⟨2024, 5, 15⟩ = (⟨2024, 1, 1⟩, ⟨2024, 3, 31⟩) ∧
    parse_last_quarter ⟨2024, 1, 15⟩ = (⟨2023, 10, 1⟩, ⟨2023, 12, 31⟩) := by
  constructor
  · rw [c1_last_quarter_correct ⟨2024, 5, 15⟩ (by decide) (by decide)]
    decide
  · rw [c1_last_quarter_correct ⟨2024, 1, 15⟩ (by decide) (by decide)]
    decide

/-- C10: for every valid reference date the previous-quarter start month
is one of 1, 4, 7, 10 — so the guard of the main branch always holds and
the `end = start` fallback is unreachable — and the returned pair has a
start on the first day of its month, start ≤ end, and an end two months
after the start (which the fallback could never produce). -/
theorem c10_fallback_unreachable (ref : Date)
    (h1 : 1 ≤ ref.month) (h2 : ref.month ≤ 12) :
    (lastQuarterStartMonth ref = 1 ∨ lastQuarterStartMonth ref = 4 ∨
      lastQuarterStartMonth ref = 7 ∨ lastQuarterStartMonth ref = 10) ∧
    (parse_last_quarter ref).1.day = 1 ∧
    dateLe (parse_last_quarter ref).1 (parse_last_quarter ref).2 = true ∧
    (parse_last_quarter ref).2.month = (parse_last_quarter ref).1.month + 2 := by
  obtain ⟨y, m, d⟩ := ref
  simp only [Date.month] at h1 h2
  interval_cases m <;>
    simp [parse_last_quarter, lastQuarterStartMonth, dateLe, lt_self_iff_false]

/-- Witness for C10 at the reference date 2024-05-15. -/
theorem c10_fallback_unreachable_witness :
    lastQuarterStartMonth ⟨2024, 5, 15⟩ = 1 ∧
    (parse_last_quarter ⟨2024, 5, 15⟩).1.day = 1 ∧
    dateLe (parse_last_quarter ⟨2024, 5, 15⟩).1
      (parse_last_quarter ⟨2024, 5, 15⟩).2 = true := by
  have h := c10_fallback_unreachable ⟨2024, 5, 15⟩ (by decide) (by decide)
  refine ⟨?_, h.2.1, h.2.2.1⟩
  decide

/-- C7: the metric is selected by first match in the fixed order
redemption, purchase, asset, and defaults to purchases when no keyword
occurs in the lowercased question. -/
theorem c7_metric_priority (q : String) :
    (strIn "redemption" (lowerStr q) = true →
      metricOf (lowerStr q) = "redemptions") ∧
    (strIn "redemption" (lowerStr q) = false →
      strIn "purchase" (lowerStr q) = true →
      metricOf (lowerStr q) = "purchases") ∧
    (strIn "redemption" (lowerStr q) = false →
      strIn "purchase" (lowerStr q) = false →
      strIn "asset" (lowerStr q) = true →
      metricOf (lowerStr q) = "assets") ∧
    (strIn "redemption" (lowerStr q) = false →
      strIn "purchase" (lowerStr q) = false →
      strIn "asset" (lowerStr q) = false →
      metricOf (lowerStr q) = "purchases") := by
  refine ⟨fun h1 => ?_, fun h1 h2 => ?_, fun h1 h2 h3 => ?_, fun h1 h2 h3 => ?_⟩ <;>
    simp [metricOf, h1]
  · simp [h2]
  · simp [h2, h3]
  · simp [h2, h3]

/-- Witness for C7: a question with none of the keywords defaults to
purchases, and one naming redemptions selects redemptions. -/
theorem c7_metric_priority_witness :
    metricOf (lowerStr "how is Business") = "purchases" ∧
    metricOf (lowerStr "Redemptions please") = "redemptions" := by
  constructor
  · exact (c7_metric_priority "how is Business").2.2.2
      (by decide) (by decide) (by decide)
  · exact (c7_metric_priority "Redemptions please").1 (by decide)

/-- C6: on the question "redemptions for rvp alice by fund type" with an
empty context the router extracts filter value "Alice" (title-cased from
the question), metric redemptions, grouping fund_type, and titles the
Result exactly "Redemptions for RVP Alice by Fund Type". -/
theorem c6_scenario_title :
    resolveRvp (lowerStr "redemptions for rvp alice by fund type").data
      (some []) = some "Alice" ∧
    metricOf (lowerStr "redemptions for rvp alice by fund type")
      = "redemptions" ∧
    groupFieldOf (lowerStr "redemptions for rvp alice by fund type")
      = some "fund_type" ∧
    (route_question "redemptions for rvp alice by fund type" (some [])
        ⟨2024, 6, 1⟩ []).title
      = some "Redemptions for RVP Alice by Fund Type" := by
  refine ⟨by decide, by decide, by decide, ?_⟩
  decide

/-- C5: whenever the question sets a grouping dimension, the router
emits the grouped-breakdown chart built from the filtered rows — even
when the trend flag is also set — because the grouping branch returns
before the trend branch is consulted. -/
theorem c5_grouping_over_trend (q : String)
    (ctx : Option (List (String × String))) (today : Date) (rows : List Row)
    (g : String)
    (hg : groupFieldOf (lowerStr q) = some g)
    (ht : wantsTrend (lowerStr q) = true) :
    route_question q ctx today rows
      = groupedChart
          (buildTitle (metricOf (lowerStr q)) (resolveRvp (lowerStr q).data ctx)
            (wantsLastQ (lowerStr q)) (some g))
          (metricOf (lowerStr q)) g (filteredRows q ctx today rows) := by
  rw [route_question, hg]

/-- Witness for C5 at "purchases by fund type over time": both a
grouping and a trend phrase are present and the grouped chart (no
" (Monthly)" title suffix) is returned. -/
theorem c5_grouping_over_trend_witness :
    wantsTrend (lowerStr "purchases by fund type over time") = true ∧
    route_question "purchases by fund type over time" none ⟨2024, 6, 1⟩ [rowJan]
      = groupedChart
          (buildTitle (metricOf (lowerStr "purchases by fund type over time"))
            (resolveRvp (lowerStr "purchases by fund type over time").data none)
            (wantsLastQ (lowerStr "purchases by fund type over time"))
            (some "fund_type"))
          (metricOf (lowerStr "purchases by fund type over time")) "fund_type"
          (filteredRows "purchases by fund type over time" none ⟨2024, 6, 1⟩
            [rowJan]) :=
  ⟨by decide,
    c5_grouping_over_trend "purchases by fund type over time" none ⟨2024, 6, 1⟩
      [rowJan] "fund_type" (by decide) (by decide)⟩

/-- C9: when the router extracts an entity-filter value matched by no
row's region owner (case-insensitively), it still produces a Result:
the scalar path reports 0.00 and the grouped and trend paths report an
empty label list and an empty series. -/
theorem c9_absent_filter_zero (q : String)
    (ctx : Option (List (String × String))) (today : Date) (rows : List Row)
    (v : String)
    (hv : resolveRvp (lowerStr q).data ctx = some v)
    (habsent : ∀ r ∈ rows, lowerStr r.rvp ≠ lowerStr v) :
    ((route_question q ctx today rows).type = "text" →
      (route_question q ctx today rows).text
        = some (pyTitle (metricOf (lowerStr q)) ++ " = " ++ "0.00")) ∧
    ((route_question q ctx today rows).type = "chart" →
      (route_question q ctx today rows).labels = some [] ∧
      (route_question q ctx today rows).datasets
        = some [⟨metricOf (lowerStr q), []⟩]) := by
  have hempty : filteredRows q ctx today rows = [] := by
    have h1 : rows.filter (fun r => lowerStr r.rvp == lowerStr v) = [] :=
      List.filter_eq_nil_iff.mpr (fun r hr => by simp [habsent r hr])
    rw [filteredRows, hv]
    cases hlq : wantsLastQ (lowerStr q) <;> simp [h1]
  cases hgf : groupFieldOf (lowerStr q) with
  | some g =>
    have hroute : route_question q ctx today rows
        = groupedChart
            (buildTitle (metricOf (lowerStr q))
              (resolveRvp (lowerStr q).data ctx) (wantsLastQ (lowerStr q))
              (some g))
            (metricOf (lowerStr q)) g [] := by
      rw [route_question, hgf, hempty]
    rw [hroute]
    refine ⟨fun htype => ?_, fun _ => ?_⟩
    · exact absurd htype (by simp [groupedChart])
    · simp [groupedChart, aggSorted, groupSums, groupKeys, sortLe]
  | none =>
    cases hwt : wantsTrend (lowerStr q) with
    | true =>
      have hroute : route_question q ctx today rows
          = monthlyChart
              (buildTitle (metricOf (lowerStr q))
                (resolveRvp (lowerStr q).data ctx) (wantsLastQ (lowerStr q))
                none)
              (metricOf (lowerStr q)) [] := by
        rw [route_question, hgf, hempty]
        simp [hwt]
      rw [hroute]
      refine ⟨fun htype => ?_, fun _ => ?_⟩
      · exact absurd htype (by simp [monthlyChart])
      · simp [monthlyChart, trendSeries, monthRange]
    | false =>
      have hroute : route_question q ctx today rows
          = scalarText
              (buildTitle (metricOf (lowerStr q))
                (resolveRvp (lowerStr q).data ctx) (wantsLastQ (lowerStr q))
                none)
              (metricOf (lowerStr q)) [] := by
        rw [route_question, hgf, hempty]
        simp [hwt]
      rw [hroute]
      refine ⟨fun _ => ?_, fun htype => ?_⟩
      · simp [scalarText, scalarTotal, fmtComma2_zero]
      · exact absurd htype (by simp [scalarText])

/-- Witness for C9: filtering for RVP Carol over a dataset owned by
Alice and Bob yields the zero scalar text. -/
theorem c9_absent_filter_zero_witness :
    (route_question "purchases for rvp carol" none ⟨2024, 6, 1⟩
        [rowJan, rowMar]).text
      = some (pyTitle (metricOf (lowerStr "purchases for rvp carol"))
          ++ " = " ++ "0.00") :=
  (c9_absent_filter_zero "purchases for rvp carol" none ⟨2024, 6, 1⟩
      [rowJan, rowMar] "Carol" (by decide) (by decide)).1 (by decide)

theorem scalarText_text (t m : String) (df : List Row) :
    (scalarText t m df).text
      = some (pyTitle m ++ " = " ++ fmtComma2 (scalarTotal df m)) := rfl

/-- C8 counterexample: with question "purchases" (no rvp pattern) and
context {"rvp": ""}, the code applies no entity filter at all — the
whole-dataset sum 10.00 is reported — whereas the claim says the
context's rvp value (the empty string) is used as the filter value,
which would retain no rows and report 0.00. -/
theorem c8_counterexample :
    resolveRvp (lowerStr "purchases").data (some [("rvp", "")]) = none ∧
    (route_question "purchases" (some [("rvp", "")]) ⟨2024, 6, 1⟩
        [rowJan]).text = some "Purchases = 10.00" ∧
    [rowJan].filter (fun r => lowerStr r.rvp == lowerStr "") = [] ∧
    some "Purchases = 10.00" ≠ some "Purchases = 0.00" := by
  refine ⟨by decide, ?_, by decide, by decide⟩
  have hg : groupFieldOf (lowerStr "purchases") = none := by decide
  have hw : wantsTrend (lowerStr "purchases") = false := by decide
  have hfilter : filteredRows "purchases" (some [("rvp", "")]) ⟨2024, 6, 1⟩
      [rowJan] = [rowJan] := by decide
  have hsum : scalarTotal [rowJan] "purchases" = 10 := by
    simp [scalarTotal, sumMetric, getMetric, rowJan]
  have hfmt : fmtComma2 (10 : ℚ) = "10.00" := by
    rw [fmtComma2, round_eq]
    norm_num
    decide
  have hm : metricOf (lowerStr "purchases") = "purchases" := by decide
  rw [route_question, hg]
  simp only [hw, if_false, Bool.false_eq_true, hfilter, hm]
  rw [scalarText_text, hsum, hfmt]
  decide

/-- C8 (amended): a question match always wins and is title-cased; when
the question has no match, the context's rvp value is used only when it
is a non-empty string (the code tests Python truthiness, so an absent
context, a missing key and an empty-string value all leave the request
unfiltered). -/
theorem c8_rvp_resolution (q : String)
    (ctx : Option (List (String × String))) :
    (∀ w, searchRvp (lowerStr q).data = some w →
      resolveRvp (lowerStr q).data ctx = some (pyTitle (String.mk w))) ∧
    (searchRvp (lowerStr q).data = none →
      ∀ c v, ctx = some c → ctxGet c "rvp" = some v → v ≠ "" →
        resolveRvp (lowerStr q).data ctx = some v) ∧
    (searchRvp (lowerStr q).data = none → ctx = none →
      resolveRvp (lowerStr q).data ctx = none) ∧
    (searchRvp (lowerStr q).data = none →
      ∀ c, ctx = some c → ctxGet c "rvp" = none →
        resolveRvp (lowerStr q).data ctx = none) ∧
    (searchRvp (lowerStr q).data = none →
      ∀ c, ctx = some c → ctxGet c "rvp" = some "" →
        resolveRvp (lowerStr q).data ctx = none) := by
  refine ⟨?_, ?_, ?_, ?_, ?_⟩
  · intro w hw
    rw [resolveRvp.eq_def, hw]
  · intro hs c v hc hget hne
    subst hc
    rw [resolveRvp.eq_def, hs]
    cases c with
    | nil => simp [ctxGet] at hget
    | cons p ps =>
      simp only [List.isEmpty_cons, if_false, Bool.false_eq_true, hget]
      simp [hne]
  · intro hs hc
    subst hc
    rw [resolveRvp.eq_def, hs]
  · intro hs c hc hget
    subst hc
    rw [resolveRvp.eq_def, hs]
    cases c with
    | nil => simp
    | cons p ps => simp [hget]
  · intro hs c hc hget
    subst hc
    rw [resolveRvp.eq_def, hs]
    cases c with
    | nil => simp [ctxGet] at hget
    | cons p ps => simp [hget]

/-- Witness for C8: on "purchases for rvp bob" the captured word is
title-cased to "Bob" whatever the context holds, and on "purchases" with
context {"rvp": "Carol"} the context value is used. -/
theorem c8_rvp_resolution_witness :
    resolveRvp (lowerStr "purchases for rvp bob").data
      (some [("rvp", "Carol")]) = some "Bob" ∧
    resolveRvp (lowerStr "purchases").data (some [("rvp", "Carol")])
      = some "Carol" := by
  constructor
  · have h := (c8_rvp_resolution "purchases for rvp bob"
        (some [("rvp", "Carol")])).1 (String.data "bob") (by decide)
    simpa using h
  · exact (c8_rvp_resolution "purchases" (some [("rvp", "Carol")])).2.1
      (by decide) [("rvp", "Carol")] "Carol" rfl (by decide) (by decide)

/-- C4 counterexample: "assets by fund type by wholesaler" contains the
substring "by wholesaler", yet the router groups by fund_type ("by fund
type" is tested first): the emitted chart labels are the fund types
Equity and Bond, and Equity is not any row's wholesaler value, so the
Result is not grouped by the wholesaler dimension. -/
theorem c4_counterexample :
    strIn "by wholesaler" (lowerStr "assets by fund type by wholesaler")
      = true ∧
    groupFieldOf (lowerStr "assets by fund type by wholesaler")
      = some "fund_type" ∧
    (route_question "assets by fund type by wholesaler" none ⟨2024, 6, 1⟩
        [rowJan, rowMar]).labels = some ["Equity", "Bond"] ∧
    "Equity" ∉ [rowJan, rowMar].map Row.wholesaler := by
  refine ⟨by decide, ?_, ?_, by decide⟩
  · decide
  · have hg : groupFieldOf (lowerStr "assets by fund type by wholesaler")
        = some "fund_type" := by decide
    have hm : metricOf (lowerStr "assets by fund type by wholesaler")
        = "assets" := by decide
    have hfilter : filteredRows "assets by fund type by wholesaler" none
        ⟨2024, 6, 1⟩ [rowJan, rowMar] = [rowJan, rowMar] := by decide
    have hagg : aggSorted [rowJan, rowMar] "fund_type" "assets"
        = [("Equity", 100), ("Bond", 50)] := by
      simp [aggSorted, groupSums, groupKeys, sortLe, insertLe, descByVal,
        strLeB, listLeB, chLtB, sumMetric, getMetric, getDim, rowJan, rowMar,
        List.dedup, List.pwFilter, List.filter]
      norm_num
    rw [route_question, hg]
    simp only [hfilter, hm, groupedChart, hagg]
    decide

/-- C4 (amended): for every question containing "by wholesaler" whose
lowercased text does not also contain the higher-priority phrase "by
fund type", the Result is a chart grouped by the wholesaler dimension —
its labels are wholesaler values of the filtered rows — with the series
sorted by descending summed metric value. -/
theorem c4_by_wholesaler (q : String)
    (ctx : Option (List (String × String))) (today : Date) (rows : List Row)
    (h1 : strIn "by fund type" (lowerStr q) = false)
    (h2 : strIn "by wholesaler" (lowerStr q) = true) :
    groupFieldOf (lowerStr q) = some "wholesaler" ∧
    (route_question q ctx today rows).type = "chart" ∧
    (route_question q ctx today rows).labels
      = some ((aggSorted (filteredRows q ctx today rows) "wholesaler"
          (metricOf (lowerStr q))).map Prod.fst) ∧
    (∀ l ∈ (aggSorted (filteredRows q ctx today rows) "wholesaler"
        (metricOf (lowerStr q))).map Prod.fst,
      l ∈ (filteredRows q ctx today rows).map Row.wholesaler) ∧
    List.Pairwise (fun a b : String × ℚ => b.2 ≤ a.2)
      (aggSorted (filteredRows q ctx today rows) "wholesaler"
        (metricOf (lowerStr q))) ∧
    List.Pairwise (fun a b : ℚ => b ≤ a)
      ((aggSorted (filteredRows q ctx today rows) "wholesaler"
        (metricOf (lowerStr q))).map (fun p => round2 p.2)) := by
  have hg : groupFieldOf (lowerStr q) = some "wholesaler" := by
    rw [groupFieldOf, h1, h2]
    simp
  have htot : ∀ a b : String × ℚ,
      descByVal a b = true ∨ descByVal b a = true := by
    intro a b
    simp only [descByVal, decide_eq_true_eq]
    exact (le_total a.2 b.2).symm
  have htrans : ∀ a b c : String × ℚ, descByVal a b = true →
      descByVal b c = true → descByVal a c = true := by
    intro a b c hab hbc
    simp only [descByVal, decide_eq_true_eq] at *
    exact le_trans hbc hab
  have hpw := pairwise_sortLe descByVal htot htrans
    (groupSums (filteredRows q ctx today rows) "wholesaler"
      (metricOf (lowerStr q)))
  have hpw' : List.Pairwise (fun a b : String × ℚ => b.2 ≤ a.2)
      (aggSorted (filteredRows q ctx today rows) "wholesaler"
        (metricOf (lowerStr q))) := by
    rw [aggSorted]
    exact hpw.imp (fun h => by simpa [descByVal] using h)
  refine ⟨hg, ?_, ?_, ?_, hpw', ?_⟩
  · rw [route_question, hg]
    simp [groupedChart]
  · rw [route_question, hg]
    simp [groupedChart]
  · intro l hl
    have hperm := (perm_sortLe descByVal
      (groupSums (filteredRows q ctx today rows) "wholesaler"
        (metricOf (lowerStr q)))).map Prod.fst
    have hl2 := hperm.mem_iff.mp (by rw [← aggSorted]; exact hl)
    have hfst : (groupSums (filteredRows q ctx today rows) "wholesaler"
        (metricOf (lowerStr q))).map Prod.fst
        = groupKeys (filteredRows q ctx today rows) "wholesaler" := by
      rw [groupSums, List.map_map]
      exact List.map_id _
    rw [hfst, groupKeys] at hl2
    have hl3 := (perm_sortLe strLeB _).mem_iff.mp hl2
    have hl4 := List.mem_dedup.mp hl3
    simpa [getDim] using hl4
  · exact List.Pairwise.map _ (fun {a b} h => round2_mono h) hpw'

/-- Witness for C4 (amended) on "redemptions by wholesaler". -/
theorem c4_by_wholesaler_witness :
    groupFieldOf (lowerStr "redemptions by wholesaler")
      = some "wholesaler" ∧
    (route_question "redemptions by wholesaler" none ⟨2024, 6, 1⟩
        [rowJan, rowMar]).type = "chart" :=
  ⟨(c4_by_wholesaler "redemptions by wholesaler" none ⟨2024, 6, 1⟩
      [rowJan, rowMar] (by decide) (by decide)).1,
    (c4_by_wholesaler "redemptions by wholesaler" none ⟨2024, 6, 1⟩
      [rowJan, rowMar] (by decide) (by decide)).2.1⟩

/-- C2 counterexample: with data only in January and March 2024 and the
question "purchases over time", the emitted labels include "2024-02",
a month absent from the data — pandas resample creates a zero bucket for
every month between the earliest and latest — so the label set is not
the set of distinct months present in the rows. -/
theorem c2_counterexample :
    (route_question "purchases over time" none ⟨2024, 6, 1⟩
        [rowJan, rowMar]).labels
      = some ["2024-01", "2024-02", "2024-03"] ∧
    monthsPresent [rowJan, rowMar] = ["2024-01", "2024-03"] ∧
    (["2024-01", "2024-02", "2024-03"] : List String)
      ≠ ["2024-01", "2024-03"] := by
  refine ⟨by decide, by decide, by decide⟩

/-- C2 (amended): with no grouping and the trend flag set, the engine
emits a chart whose buckets are all consecutive calendar months from the
earliest through the latest month present in the filtered rows (months
inside that span but absent from the data get a zero-sum bucket), in
chronological order, with per-month rounded sums of the metric and the
title suffixed " (Monthly)". -/
theorem c2_trend_buckets (q : String)
    (ctx : Option (List (String × String))) (today : Date) (rows : List Row)
    (hg : groupFieldOf (lowerStr q) = none)
    (ht : wantsTrend (lowerStr q) = true) :
    route_question q ctx today rows
      = monthlyChart (buildTitle (metricOf (lowerStr q))
          (resolveRvp (lowerStr q).data ctx) (wantsLastQ (lowerStr q)) none)
          (metricOf (lowerStr q)) (filteredRows q ctx today rows) ∧
    (route_question q ctx today rows).title
      = some (buildTitle (metricOf (lowerStr q))
          (resolveRvp (lowerStr q).data ctx) (wantsLastQ (lowerStr q)) none
          ++ " (Monthly)") ∧
    (route_question q ctx today rows).labels
      = some ((monthRange (filteredRows q ctx today rows)).map monthLabel) ∧
    List.Pairwise (· < ·) (monthRange (filteredRows q ctx today rows)) ∧
    (∀ r ∈ filteredRows q ctx today rows,
      monthIdx r.date ∈ monthRange (filteredRows q ctx today rows)) ∧
    (route_question q ctx today rows).datasets
      = some [⟨metricOf (lowerStr q),
          (trendSeries (filteredRows q ctx today rows)
            (metricOf (lowerStr q))).map (fun p => round2 p.2)⟩] := by
  have hroute : route_question q ctx today rows
      = monthlyChart (buildTitle (metricOf (lowerStr q))
          (resolveRvp (lowerStr q).data ctx) (wantsLastQ (lowerStr q)) none)
          (metricOf (lowerStr q)) (filteredRows q ctx today rows) := by
    rw [route_question, hg]
    simp [ht]
  refine ⟨hroute, ?_, ?_, pairwise_lt_monthRange _,
    fun r hr => monthIdx_mem_monthRange hr, ?_⟩
  · rw [hroute]
    rfl
  · rw [hroute]
    show some ((trendSeries (filteredRows q ctx today rows)
        (metricOf (lowerStr q))).map (fun p => monthLabel p.1)) = _
    rw [trendSeries, List.map_map]
    rfl
  · rw [hroute]
    rfl

/-- Witness for C2 (amended): the January-to-March dataset gets the
three consecutive monthly buckets. -/
theorem c2_trend_buckets_witness :
    (route_question "purchases over time" none ⟨2024, 6, 1⟩
        [rowJan, rowMar]).labels
      = some ((monthRange (filteredRows "purchases over time" none
          ⟨2024, 6, 1⟩ [rowJan, rowMar])).map monthLabel) ∧
    (monthRange (filteredRows "purchases over time" none ⟨2024, 6, 1⟩
        [rowJan, rowMar])).map monthLabel
      = ["2024-01", "2024-02", "2024-03"] :=
  ⟨(c2_trend_buckets "purchases over time" none ⟨2024, 6, 1⟩
      [rowJan, rowMar] (by decide) (by decide)).2.2.1, by decide⟩

/-- C3 counterexample: over two rows with purchases 1.004 (= 251/250)
each in distinct fund types, the grouped chart carries the per-group
rounded values 1.00 and 1.00, summing to 2.00, while the ungrouped text
Result reports the rounded total 2.008 → "2.01": the chart series sum
does not equal the reported scalar. -/
theorem c3_counterexample :
    chartDataSum (route_question "purchases by fund type" none ⟨2024, 6, 1⟩
        [rowTieA, rowTieB]) = 2 ∧
    (route_question "purchases" none ⟨2024, 6, 1⟩ [rowTieA, rowTieB]).text
      = some "Purchases = 2.01" ∧
    scalarTotal [rowTieA, rowTieB] "purchases" = 251/125 ∧
    ((2 : ℚ) ≠ 251/125) ∧
    round2 (251/125) = 201/100 ∧
    ((2 : ℚ) ≠ 201/100) := by
  have hsum : scalarTotal [rowTieA, rowTieB] "purchases" = 251/125 := by
    simp [scalarTotal, sumMetric, getMetric, rowTieA, rowTieB]
    norm_num
  refine ⟨?_, ?_, hsum, by norm_num, ?_, by norm_num⟩
  · have hg : groupFieldOf (lowerStr "purchases by fund type")
        = some "fund_type" := by decide
    have hm : metricOf (lowerStr "purchases by fund type")
        = "purchases" := by decide
    have hnf : resolveRvp (lowerStr "purchases by fund type").data none
        = none := by decide
    have hnw : wantsLastQ (lowerStr "purchases by fund type") = false := by
      decide
    have hfilter : filteredRows "purchases by fund type" none ⟨2024, 6, 1⟩
        [rowTieA, rowTieB] = [rowTieA, rowTieB] := by
      rw [filteredRows, hnf]
      simp [hnw]
    have hagg : aggSorted [rowTieA, rowTieB] "fund_type" "purchases"
        = [("A", 251/250), ("B", 251/250)] := by
      simp [aggSorted, groupSums, groupKeys, sortLe, insertLe, descByVal,
        strLeB, listLeB, chLtB, sumMetric, getMetric, getDim, rowTieA, rowTieB,
        List.dedup, List.pwFilter, List.filter]
    have hround : round2 (251/250 : ℚ) = 1 := by
      rw [round2, round_eq]
      norm_num
    rw [route_question, hg]
    simp only [hfilter, hm, groupedChart, hagg, chartDataSum]
    simp [hround]
    norm_num
  · have hg2 : groupFieldOf (lowerStr "purchases") = none := by decide
    have hw2 : wantsTrend (lowerStr "purchases") = false := by decide
    have hm2 : metricOf (lowerStr "purchases") = "purchases" := by decide
    have hnf2 : resolveRvp (lowerStr "purchases").data none = none := by
      decide
    have hnw2 : wantsLastQ (lowerStr "purchases") = false := by decide
    have hfilter2 : filteredRows "purchases" none ⟨2024, 6, 1⟩
        [rowTieA, rowTieB] = [rowTieA, rowTieB] := by
      rw [filteredRows, hnf2]
      simp [hnw2]
    have hfmt : fmtComma2 ((251 : ℚ)/125) = "2.01" := by
      rw [fmtComma2, round_eq]
      norm_num
      decide
    rw [route_question, hg2]
    simp only [hw2, if_false, Bool.false_eq_true, hfilter2, hm2]
    rw [scalarText_text, hsum, hfmt]
    decide
  · rw [round2, round_eq]
    norm_num

/-- C3 (amended): for a grouped question and an ungrouped, non-trend
question agreeing on metric, entity filter and time window, the sum of
the grouped series *before* the per-group 2-decimal rounding equals the
scalar total the text path formats; the emitted chart data are exactly
the per-group roundings of those sums, so the round-trip holds only up
to rounding. -/
theorem c3_sums_round_trip (q1 q2 : String)
    (ctx : Option (List (String × String))) (today : Date) (rows : List Row)
    (g : String)
    (hg1 : groupFieldOf (lowerStr q1) = some g)
    (hg2 : groupFieldOf (lowerStr q2) = none)
    (ht2 : wantsTrend (lowerStr q2) = false)
    (hm : metricOf (lowerStr q1) = metricOf (lowerStr q2))
    (hr : resolveRvp (lowerStr q1).data ctx = resolveRvp (lowerStr q2).data ctx)
    (hw : wantsLastQ (lowerStr q1) = wantsLastQ (lowerStr q2)) :
    ((aggSorted (filteredRows q1 ctx today rows) g
        (metricOf (lowerStr q1))).map Prod.snd).sum
      = scalarTotal (filteredRows q2 ctx today rows)
          (metricOf (lowerStr q2)) ∧
    (route_question q1 ctx today rows).datasets
      = some [⟨metricOf (lowerStr q1),
          (aggSorted (filteredRows q1 ctx today rows) g
            (metricOf (lowerStr q1))).map (fun p => round2 p.2)⟩] ∧
    (route_question q2 ctx today rows).text
      = some (pyTitle (metricOf (lowerStr q2)) ++ " = "
          ++ fmtComma2 (scalarTotal (filteredRows q2 ctx today rows)
              (metricOf (lowerStr q2)))) := by
  have hfeq : filteredRows q1 ctx today rows
      = filteredRows q2 ctx today rows := by
    rw [filteredRows, filteredRows, hr, hw]
  refine ⟨?_, ?_, ?_⟩
  · calc ((aggSorted (filteredRows q1 ctx today rows) g
          (metricOf (lowerStr q1))).map Prod.snd).sum
        = ((groupSums (filteredRows q1 ctx today rows) g
            (metricOf (lowerStr q1))).map Prod.snd).sum :=
          aggSorted_snd_sum _ _ _
      _ = sumMetric (filteredRows q1 ctx today rows)
            (metricOf (lowerStr q1)) := groupSums_total _ _ _
      _ = sumMetric (filteredRows q2 ctx today rows)
            (metricOf (lowerStr q2)) := by rw [hfeq, hm]
      _ = scalarTotal (filteredRows q2 ctx today rows)
            (metricOf (lowerStr q2)) :=
          (scalarTotal_eq_sumMetric _ _).symm
  · rw [route_question, hg1]
    simp [groupedChart]
  · rw [route_question, hg2]
    simp only [ht2, if_false, Bool.false_eq_true]
    rw [scalarText_text]

/-- Witness for C3 (amended): "purchases by fund type" against
"purchases" over the two-row dataset. -/
theorem c3_sums_round_trip_witness :
    ((aggSorted (filteredRows "purchases by fund type" none ⟨2024, 6, 1⟩
        [rowJan, rowMar]) "fund_type"
        (metricOf (lowerStr "purchases by fund type"))).map Prod.snd).sum
      = scalarTotal (filteredRows "purchases" none ⟨2024, 6, 1⟩
          [rowJan, rowMar]) (metricOf (lowerStr "purchases")) :=
  (c3_sums_round_trip "purchases by fund type" "purchases" none ⟨2024, 6, 1⟩
    [rowJan, rowMar] "fund_type" (by decide) (by decide) (by decide)
    (by decide) (by decide) (by decide)).1
